import Mathlib

/-!
Shallow embedding of the MCP client connection manager
(`src/mcp/create-mcp-client.ts`, the `MCPClient` class) together with the
configuration schemas (`app-types/mcp`).

Modelling conventions:
* JavaScript exceptions are `Except Err`; a `try { ... } catch` block is a
  `match` on the result of an `Except`-valued body.  Because mutations made
  before a `throw` survive into the `catch`, the body threads the state and
  a failure carries the state at the throw point.
* The outside world (the MCP SDK `Client`: handshake, `listTools`,
  `callTool`, `close`) is an oracle record passed in: each remote operation
  is an arbitrary `Except`/value chosen by the oracle.
* The `Locker` mutex and `createDebounce` live in `lib/utils`, which is not
  part of the sources; they are modelled from the spec: the lock is a
  boolean field (`lock`/`unlock` set it, `isLocked` reads it, `wait`
  suspends until it is false and changes nothing), and the debounce is a
  single pending slot re-armed on each call (cancel-and-replace), recorded
  here as a `pendingDisconnect` flag plus an `armCount` counter.
* Execution is sequential: an `await` is a point where the embedded body
  simply continues; claims about what happens while a lock is held are
  stated with the lock state as an explicit hypothesis.
* Logging (`this.log.error`, and the error branches of `.watch`) is
  modelled as appending to a `loggedErrors` list; info-level logs are not
  modelled.
-/

namespace MCP

/-- JavaScript error values that can be thrown or stored in `this.error`.
The first four constructors are the throw sites in the source
(`"Stdio transport is not supported"`, `"Invalid server config"`, the Zod
parse failure, the `new URL` failure); `nullResult` is
`"Tool call failed with null"`; `ext` is a failure produced by the outside
world (handshake, `listTools`, remote `callTool`, `close`); `abortedErr`
is the exception of `AbortSignal.throwIfAborted`. -/
inductive Err where
  | stdioNotSupported
  | invalidServerConfig
  | zodParse (msg : String)
  | invalidUrl (url : String)
  | nullResult
  | ext (msg : String)
  | abortedErr
  deriving DecidableEq, Repr

/-- The `error.message` of the modelled JavaScript error. -/
def errMessage : Err → String
  | .stdioNotSupported => "Stdio transport is not supported"
  | .invalidServerConfig => "Invalid server config"
  | .zodParse msg => msg
  | .invalidUrl url => "Invalid URL: " ++ url
  | .nullResult => "Tool call failed with null"
  | .ext msg => msg
  | .abortedErr => "This operation was aborted"

/-- The `error.name` of the modelled JavaScript error. -/
def errName : Err → String
  | .invalidUrl _ => "TypeError"
  | .abortedErr => "AbortError"
  | _ => "Error"

/-- Type `MCPServerConfig` (`app-types/mcp`): the union of the Stdio shape and
the SSE shape, before Zod validation, plus a constructor for a value that
matches neither probe (`isMaybeStdioConfig` / `isMaybeSseConfig` both
false), which the source rejects with `"Invalid server config"`.  Optional
fields (`args?`, `env?`, `headers?`) are `Option`s; records of strings are
association lists. -/
inductive MCPServerConfig where
  | stdio (command : String) (args : Option (List String))
      (env : Option (List (String × String)))
  | sse (url : String) (headers : Option (List (String × String)))
  | other
  deriving DecidableEq, Repr

/-- Probe `isMaybeStdioConfig` (`./is-mcp-config`, not among the sources).
Modelled from the spec: the config union is "a genuine sum type with
exhaustive matching", so the probe is true exactly on the Stdio arm. -/
def isMaybeStdioConfig : MCPServerConfig → Bool
  | .stdio _ _ _ => true
  | _ => false

/-- Probe `isMaybeSseConfig` (`./is-mcp-config`, not among the sources).
Modelled from the spec, as for `isMaybeStdioConfig`. -/
def isMaybeSseConfig : MCPServerConfig → Bool
  | .sse _ _ => true
  | _ => false

/-- Lookup in a JavaScript record of strings represented as an association
list (objects have no duplicate keys, so the first hit is the value). -/
def alistLookup (l : List (String × String)) (k : String) : Option String :=
  (l.find? (fun p => p.1 == k)).map (fun p => p.2)

/-- The merged object `{ ...process.env, ...config.env }`, as a lookup
function.  `process.env` has type `Record<string, string | undefined>`:
a present key may hold `undefined`, hence `penv : String → Option (Option
String)` (outer `Option` = key present, inner = value defined).  Spread
semantics: a key of `config.env` wins; otherwise the `process.env` entry
(if any) is kept, `undefined` value included. -/
def spreadEnv (penv : String → Option (Option String))
    (cenv : Option (String → Option String)) (k : String) :
    Option (Option String) :=
  match cenv with
  | none => penv k
  | some c =>
    match c k with
    | some v => some (some v)
    | none => penv k

/-- The `.reduce` over `Object.entries` of the merged object: every entry
whose value is not `undefined` is kept, entries with `undefined` values
are dropped.  This is the `env` record handed to `StdioClientTransport`. -/
def filteredEnv (penv : String → Option (Option String))
    (cenv : Option (String → Option String)) (k : String) : Option String :=
  match spreadEnv penv cenv k with
  | some (some v) => some v
  | _ => none

/-- Validation `MCPStdioConfigZodSchema.parse`: `command` is `z.string().min(1)`,
`args` and `env` are optional and pass through. -/
def parseStdioConfig (command : String) (args : Option (List String))
    (env : Option (List (String × String))) :
    Except Err (String × Option (List String) × Option (List (String × String))) :=
  if 1 ≤ command.length then .ok (command, args, env)
  else .error (.zodParse "String must contain at least 1 character(s)")

/-- A constructed transport.  `stdio` records the arguments given to
`StdioClientTransport` (command, args, the filtered environment as a
lookup function, and `cwd`); `sse` records the URL and headers given to
`SSEClientTransport`.  Constructing the value does not start the
subprocess; what matters for the claims is whether a `stdio` value is
constructed at all. -/
inductive Transport where
  | stdio (command : String) (args : Option (List String))
      (env : String → Option String) (cwd : String)
  | sse (url : String) (headers : Option (List (String × String)))

/-- The transport-selection section of `connect` (lines 101–135):
dispatch on the config shape; under the `IS_MCP_SERVER_SSE_ONLY` policy
the Stdio arm throws before anything is built; otherwise Zod-parse, then
build the transport.  `urlValid` models `new URL` (and `z.string().url()`)
succeeding on a string. -/
def buildTransport (sseOnly : Bool) (urlValid : String → Bool)
    (penv : String → Option (Option String)) (cwd : String) :
    MCPServerConfig → Except Err Transport
  | .stdio command args env =>
    if sseOnly then .error .stdioNotSupported
    else
      match parseStdioConfig command args env with
      | .error e => .error e
      | .ok (c, a, eo) =>
        .ok (.stdio c a (filteredEnv penv (eo.map alistLookup)) cwd)
  | .sse url headers =>
    if urlValid url then .ok (.sse url headers)
    else .error (.invalidUrl url)
  | .other => .error .invalidServerConfig

/-- The `inputSchema` of a tool as reported by the server
(`MCPToolInfo.inputSchema` in `app-types/mcp`): optional `type`,
`properties` (property name mapped to an opaque sub-schema string) and
`required`. -/
structure InputSchema where
  type? : Option String
  properties? : Option (List (String × String))
  required? : Option (List String)
  deriving DecidableEq, Repr

/-- One entry of `toolResponse.tools` from `client.listTools()`. -/
structure RemoteTool where
  name : String
  description : String
  inputSchema : InputSchema
  deriving DecidableEq, Repr

/-- Type `MCPToolInfo` (`app-types/mcp`): what `connect` copies field-by-field
from each remote tool into `this.toolInfo`. -/
structure MCPToolInfo where
  name : String
  description : String
  inputSchema : InputSchema
  deriving DecidableEq, Repr

/-- The parameter schema handed to `jsonSchema` when building a wrapper:
`{ ..._tool.inputSchema, properties: _tool.inputSchema.properties ?? {},
additionalProperties: false }`. -/
structure WrapperSchema where
  type? : Option String
  properties : List (String × String)
  required? : Option (List String)
  additionalProperties : Bool
  deriving DecidableEq, Repr

/-- Tool-call arguments (`input as Record<string, unknown>`), abstracted
to a record of opaque strings. -/
abbrev Params := List (String × String)

/-- The AI-SDK tool wrapper built by `connect` for one remote tool: the
declared parameter schema, the description, and the tool name captured by
the `execute` closure (which forwards to `this.callTool(_tool.name,
params)`). -/
structure ToolWrapper where
  parameters : WrapperSchema
  description : String
  toolName : String
  deriving DecidableEq, Repr

/-- The wrapper for one remote tool (the body of the `reduce` at lines
155–172, minus the store into `prev`). -/
def mkWrapper (t : RemoteTool) : ToolWrapper :=
  { parameters :=
      { type? := t.inputSchema.type?
        properties := t.inputSchema.properties?.getD []
        required? := t.inputSchema.required?
        additionalProperties := false }
    description := t.description
    toolName := t.name }

/-- Assignment `prev[key] = value` on a JavaScript record represented as an
association list: overwrite in place if the key exists, append otherwise. -/
def recordSet (l : List (String × ToolWrapper)) (k : String)
    (v : ToolWrapper) : List (String × ToolWrapper) :=
  if l.any (fun p => p.1 == k) then
    l.map (fun p => if p.1 == k then (k, v) else p)
  else l ++ [(k, v)]

/-- The `reduce` building `this.tools` from the discovered tools. -/
def buildWrappers (tools : List RemoteTool) : List (String × ToolWrapper) :=
  tools.foldl (fun prev t => recordSet prev t.name (mkWrapper t)) []

/-- The remote invocation `this.callTool` is given by a wrapper's
`execute`: the captured tool name and the parameters of the call. -/
structure ToolCallInvocation where
  name : String
  arguments : Params
  deriving DecidableEq, Repr

/-- A wrapper's `execute(params, options)`:
`options?.abortSignal?.throwIfAborted()` first — if an abort signal is
present (`some b`) and already aborted (`b = true`) this throws, so no
remote call is issued; otherwise the call forwards to
`this.callTool(_tool.name, params)`, here represented by the forwarded
invocation. -/
def wrapperExecute (w : ToolWrapper) (params : Params)
    (abortSignal : Option Bool) : Except Err ToolCallInvocation :=
  match abortSignal with
  | some true => .error .abortedErr
  | _ => .ok ⟨w.toolName, params⟩

/-- An opaque identity for an MCP SDK `Client` object. -/
structure ClientHandle where
  id : Nat
  deriving DecidableEq, Repr

/-- The `ClientOptions` record. -/
structure ClientOptions where
  autoDisconnectSeconds : Option Nat
  deriving DecidableEq, Repr

/-- The immutable constructor arguments of an `MCPClient`. -/
structure MCPClient0 where
  name : String
  serverConfig : MCPServerConfig
  options : ClientOptions
  deriving DecidableEq, Repr

/-- The mutable fields of an `MCPClient`, plus the modelled debounce and
log.  `lockerLocked` is the `Locker` state (modelled from the spec, see
the header).  `pendingDisconnect` says whether the single debounce slot
holds a pending `disconnect`; `armCount` counts how often
`scheduleAutoDisconnect` armed it (each arm cancels and replaces any
previous pending action).  `loggedErrors` collects `log.error` payloads. -/
structure MCPClientState where
  client : Option ClientHandle
  error : Option Err
  isConnected : Bool
  lockerLocked : Bool
  toolInfo : List MCPToolInfo
  tools : List (String × ToolWrapper)
  pendingDisconnect : Bool
  armCount : Nat
  loggedErrors : List Err
  deriving DecidableEq, Repr

/-- The state of a freshly constructed `MCPClient`. -/
def initState : MCPClientState :=
  { client := none, error := none, isConnected := false
    lockerLocked := false, toolInfo := [], tools := []
    pendingDisconnect := false, armCount := 0, loggedErrors := [] }

/-- The `status` values of `MCPServerInfo`. -/
inductive Status where
  | connected
  | disconnected
  | loading
  deriving DecidableEq, Repr

/-- The snapshot `MCPServerInfo` returned by `getInfo`. -/
structure MCPServerInfo where
  name : String
  config : MCPServerConfig
  status : Status
  error : Option Err
  toolInfo : List MCPToolInfo
  deriving DecidableEq, Repr

/-- Method `getInfo()`: `status` is computed on the spot from the lock and the
connection flag; nothing is cached. -/
def getInfo (c : MCPClient0) (st : MCPClientState) : MCPServerInfo :=
  { name := c.name
    config := c.serverConfig
    status :=
      if st.lockerLocked then .loading
      else if st.isConnected then .connected
      else .disconnected
    error := st.error
    toolInfo := st.toolInfo }

/-- Method `scheduleAutoDisconnect()`: the guard
`if (this.options.autoDisconnectSeconds)` is JS truthiness, so both an
unset option and a configured delay of `0` schedule nothing; for a
configured non-zero delay, re-arm the debounced `disconnect`
(cancel-and-replace: the single pending slot is refreshed, counted by
`armCount`). -/
def scheduleAutoDisconnect (c : MCPClient0) (st : MCPClientState) :
    MCPClientState :=
  match c.options.autoDisconnectSeconds with
  | some s =>
    if s = 0 then st
    else { st with pendingDisconnect := true, armCount := st.armCount + 1 }
  | none => st

/-- The oracle for one run of `connect`'s interaction with the SDK:
the `Client` object built by `new Client(...)`, the outcome of
`client.connect(transport)` and the outcome of `client.listTools()`. -/
structure ConnectEnv where
  newClient : ClientHandle
  handshake : Except Err Unit
  listTools : Except Err (List RemoteTool)

/-- The `try` block of `connect` (lines 92–173), from transport
construction onwards, threading the mutable state; a failure carries the
state at the throw point, because assignments made before the throw are
kept by the `catch`. -/
def connectBody (c : MCPClient0) (sseOnly : Bool) (urlValid : String → Bool)
    (penv : String → Option (Option String)) (cwd : String)
    (env : ConnectEnv) (st : MCPClientState) :
    Except (Err × MCPClientState) MCPClientState :=
  match buildTransport sseOnly urlValid penv cwd c.serverConfig with
  | .error e => .error (e, st)
  | .ok _transport =>
    match env.handshake with
    | .error e => .error (e, st)
    | .ok _ =>
      let st := { st with
        isConnected := true, error := none, client := some env.newClient }
      match env.listTools with
      | .error e => .error (e, st)
      | .ok tools =>
        let st := { st with
          toolInfo := tools.map fun t => ⟨t.name, t.description, t.inputSchema⟩
          tools := buildWrappers tools }
        .ok (scheduleAutoDisconnect c st)

/-- Method `connect()` (lines 84–182).  If the locker is held, `wait()` and
return `this.client` (sequential model: the state is whatever the winner
left).  If already connected, return `this.client`.  Otherwise lock, run
the body, on failure log the error and set `isConnected := false`,
`error := e` (the `catch`), then unlock and return `this.client`. -/
def connect (c : MCPClient0) (sseOnly : Bool) (urlValid : String → Bool)
    (penv : String → Option (Option String)) (cwd : String)
    (env : ConnectEnv) (st : MCPClientState) :
    MCPClientState × Option ClientHandle :=
  if st.lockerLocked then (st, st.client)
  else if st.isConnected then (st, st.client)
  else
    let st0 := { st with lockerLocked := true }
    let st1 :=
      match connectBody c sseOnly urlValid penv cwd env st0 with
      | .ok s => s
      | .error (e, s) =>
        { s with
          loggedErrors := s.loggedErrors ++ [e]
          isConnected := false
          error := some e }
    let st2 := { st1 with lockerLocked := false }
    (st2, st2.client)

/-- Method `disconnect()` (lines 183–190).  `await this.locker.wait()` is the
rendezvous with any in-flight `connect` — in this sequential model the
body below runs once the lock is free and the wait itself changes
nothing.  Then: `isConnected := false`, take and clear `this.client`, and
`client?.close().catch(log)` — close is skipped if there was no client,
and a close failure is logged and swallowed.  `closeResult` is the
oracle for `client.close()`.  The function is total: no outcome of
`close` escapes to the caller. -/
def disconnect (st : MCPClientState) (closeResult : Except Err Unit) :
    MCPClientState :=
  let st1 := { st with isConnected := false }
  let client := st1.client
  let st2 := { st1 with client := none }
  match client with
  | none => st2
  | some _ =>
    match closeResult with
    | .ok _ => st2
    | .error e => { st2 with loggedErrors := st2.loggedErrors ++ [e] }

/-- One element of a tool result's `content` array. -/
inductive ContentItem where
  | text (text : String)
  deriving DecidableEq, Repr

/-- The shape of a tool-call result as `callTool` returns it: a `content`
array and an `isError` flag (a successful remote result may have
`isError := false` or a remote-reported error `isError := true`). -/
structure CallToolResult where
  content : List ContentItem
  isError : Bool
  deriving DecidableEq, Repr

/-- The `JSON.stringify({ error: { message: errorToString(error), name:
error?.name } })` payload of the structured error result, modelled as a
deterministic textual encoding of the same two fields
(`errorToString` lives in `lib/utils`, not among the sources; modelled
from the spec as producing a message describing the failure). -/
def errorPayload (e : Err) : String :=
  "error message: " ++ errMessage e ++ "; name: " ++ errName e

/-- The structured error result built by the `.ifFail` stage of
`callTool`. -/
def failResult (e : Err) : CallToolResult :=
  { content := [.text (errorPayload e)], isError := true }

/-- The oracle for one run of `callTool`: the oracle for the implicit
`connect`, and the outcome of `client.callTool(...)` on the SDK client —
a throw (`.error`), a null/undefined response (`.ok none`), or a result
value (`.ok (some r)`). -/
structure CallEnv where
  connectEnv : ConnectEnv
  remote : Except Err (Option CallToolResult)

/-- Method `callTool(toolName, input)` (lines 191–231), the `ts-safe` chain made
explicit (ts-safe is an external dependency; its documented `Result`
semantics are embedded directly):
1. `safe(log)` starts the chain ok;
2. `.map`: `await this.connect()`, then `client?.callTool(...)` — no
   client gives an undefined value, a present client gives the remote
   outcome, a remote throw fails the chain;
3. `.ifOk`: a null/undefined value throws `"Tool call failed with null"`;
4. `.ifOk(() => this.scheduleAutoDisconnect())` — runs only while the
   chain is still ok;
5. `.watch`: logs when the chain failed, or when the ok value itself has
   `isError`;
6. `.ifFail`: converts a failed chain into the structured error result;
7. `.unwrap()`: after `.ifFail` the chain is always ok, so this returns
   the value and never throws. -/
def callTool (c : MCPClient0) (sseOnly : Bool) (urlValid : String → Bool)
    (penv : String → Option (Option String)) (cwd : String)
    (env : CallEnv) (st : MCPClientState)
    (_toolName : String) (_input : Params) :
    MCPClientState × CallToolResult :=
  let r1 := connect c sseOnly urlValid penv cwd env.connectEnv st
  let st1 := r1.1
  let step1 : Except Err (Option CallToolResult) :=
    match r1.2 with
    | none => .ok none
    | some _ => env.remote
  let step2 : Except Err CallToolResult :=
    match step1 with
    | .error e => .error e
    | .ok none => .error .nullResult
    | .ok (some v) => .ok v
  match step2 with
  | .ok v =>
    let st2 := scheduleAutoDisconnect c st1
    let st3 :=
      if v.isError then { st2 with loggedErrors := st2.loggedErrors ++ [.ext "Tool call failed"] }
      else st2
    (st3, v)
  | .error e =>
    let st2 := { st1 with loggedErrors := st1.loggedErrors ++ [e] }
    (st2, failResult e)

/-! Concrete fixtures used by witnesses and counterexamples. -/

/-- A URL validator accepting everything (oracle for `new URL`). -/
def anyUrl : String → Bool := fun _ => true

/-- An empty ambient process environment. -/
def emptyPenv : String → Option (Option String) := fun _ => none

/-- A small ambient environment: a key `A` with value `0`, a `PATH`,
and a key `UNDEF` that is present but holds `undefined`. -/
def samplePenv : String → Option (Option String) := fun k =>
  if k = "A" then some (some "0")
  else if k = "PATH" then some (some "/usr/bin")
  else if k = "UNDEF" then some none
  else none

/-- A manager over an SSE config with a 5-second auto-disconnect. -/
def sseClient : MCPClient0 :=
  ⟨"srv", .sse "http://localhost/sse" none, ⟨some 5⟩⟩

/-- A manager over a config matching neither shape probe. -/
def badClient : MCPClient0 := ⟨"srv", .other, ⟨none⟩⟩

/-- One discovered remote tool. -/
def okTool : RemoteTool := ⟨"echo", "echoes text", ⟨some "object", none, none⟩⟩

/-- An oracle for a fully successful `connect` discovering `okTool`. -/
def goodConnectEnv : ConnectEnv := ⟨⟨0⟩, .ok (), .ok [okTool]⟩

/-! Theorems. -/

/-- Helper: a failure of `connectBody` never modifies `toolInfo`,
`tools`, the lock or the log before the throw (the only assignments that
can precede a throw are `isConnected`, `error`, `client`). -/
theorem connectBody_error_fields (c : MCPClient0) (sseOnly : Bool)
    (urlValid : String → Bool) (penv : String → Option (Option String))
    (cwd : String) (env : ConnectEnv) (st : MCPClientState)
    (e : Err) (s : MCPClientState)
    (h : connectBody c sseOnly urlValid penv cwd env st = .error (e, s)) :
    s.toolInfo = st.toolInfo ∧ s.tools = st.tools ∧
    s.lockerLocked = st.lockerLocked ∧ s.loggedErrors = st.loggedErrors := by
  unfold connectBody at h
  rcases hbt : buildTransport sseOnly urlValid penv cwd c.serverConfig with e1 | t
  · rw [hbt] at h
    simp only [Except.error.injEq, Prod.mk.injEq] at h
    obtain ⟨rfl, rfl⟩ := h
    exact ⟨rfl, rfl, rfl, rfl⟩
  · rw [hbt] at h
    rcases hhs : env.handshake with e2 | u
    · rw [hhs] at h
      simp only [Except.error.injEq, Prod.mk.injEq] at h
      obtain ⟨rfl, rfl⟩ := h
      exact ⟨rfl, rfl, rfl, rfl⟩
    · rw [hhs] at h
      rcases hlt : env.listTools with e3 | tools
      · rw [hlt] at h
        simp only [Except.error.injEq, Prod.mk.injEq] at h
        obtain ⟨rfl, rfl⟩ := h
        exact ⟨rfl, rfl, rfl, rfl⟩
      · rw [hlt] at h
        simp at h

/-- Helper: the value of `connect` when the lock is free, the manager is
not connected, and the body fails — the `catch` plus unlock, spelled
out. -/
theorem connect_of_body_error (c : MCPClient0) (sseOnly : Bool)
    (urlValid : String → Bool) (penv : String → Option (Option String))
    (cwd : String) (env : ConnectEnv) (st : MCPClientState)
    (e : Err) (s : MCPClientState)
    (hLock : st.lockerLocked = false) (hConn : st.isConnected = false)
    (hFail : connectBody c sseOnly urlValid penv cwd env
      { st with lockerLocked := true } = .error (e, s)) :
    connect c sseOnly urlValid penv cwd env st =
      ({ s with
          isConnected := false
          error := some e
          lockerLocked := false
          loggedErrors := s.loggedErrors ++ [e] }, s.client) := by
  unfold connect
  rw [if_neg (by simp [hLock]), if_neg (by simp [hConn])]
  dsimp only
  rw [hFail]

/-- Helper: the value of `connect` when the lock is free, the manager is
not connected, and the body succeeds. -/
theorem connect_of_body_ok (c : MCPClient0) (sseOnly : Bool)
    (urlValid : String → Bool) (penv : String → Option (Option String))
    (cwd : String) (env : ConnectEnv) (st : MCPClientState)
    (s : MCPClientState)
    (hLock : st.lockerLocked = false) (hConn : st.isConnected = false)
    (hOk : connectBody c sseOnly urlValid penv cwd env
      { st with lockerLocked := true } = .ok s) :
    connect c sseOnly urlValid penv cwd env st =
      ({ s with lockerLocked := false }, s.client) := by
  unfold connect
  rw [if_neg (by simp [hLock]), if_neg (by simp [hConn])]
  dsimp only
  rw [hOk]

/-- C1: `connect()` is a total function of the state and the oracle (it
never raises); whenever its body fails — transport construction,
handshake, or tool listing — the error is stored, the manager ends up
Disconnected with the lock released, the tool mapping stays empty when it
was empty before the call, and the returned handle is exactly the
manager's `client` field. -/
theorem connect_failure_contained (c : MCPClient0) (sseOnly : Bool)
    (urlValid : String → Bool) (penv : String → Option (Option String))
    (cwd : String) (env : ConnectEnv) (st : MCPClientState)
    (hLock : st.lockerLocked = false) (hConn : st.isConnected = false)
    (hTI : st.toolInfo = []) (hT : st.tools = [])
    (e : Err) (s : MCPClientState)
    (hFail : connectBody c sseOnly urlValid penv cwd env
      { st with lockerLocked := true } = .error (e, s)) :
    (connect c sseOnly urlValid penv cwd env st).1.error = some e ∧
    (connect c sseOnly urlValid penv cwd env st).1.isConnected = false ∧
    (connect c sseOnly urlValid penv cwd env st).1.toolInfo = [] ∧
    (connect c sseOnly urlValid penv cwd env st).1.tools = [] ∧
    (connect c sseOnly urlValid penv cwd env st).1.lockerLocked = false ∧
    (connect c sseOnly urlValid penv cwd env st).2 =
      (connect c sseOnly urlValid penv cwd env st).1.client ∧
    (getInfo c (connect c sseOnly urlValid penv cwd env st).1).status =
      .disconnected := by
  obtain ⟨h1, h2, h3, h4⟩ := connectBody_error_fields c sseOnly urlValid penv
    cwd env { st with lockerLocked := true } e s hFail
  rw [connect_of_body_error c sseOnly urlValid penv cwd env st e s hLock
    hConn hFail]
  refine ⟨rfl, rfl, ?_, ?_, rfl, rfl, by simp [getInfo]⟩
  · show s.toolInfo = []
    rw [h1]; exact hTI
  · show s.tools = []
    rw [h2]; exact hT

/-- Witness for C1 at a concrete input: a config matching neither shape
probe makes the body throw `"Invalid server config"`; the failed
`connect` stores it and ends Disconnected. -/
theorem connect_failure_contained_witness :
    (connect badClient false anyUrl emptyPenv "/" ⟨⟨0⟩, .ok (), .ok []⟩
      initState).1.error = some .invalidServerConfig ∧
    (connect badClient false anyUrl emptyPenv "/" ⟨⟨0⟩, .ok (), .ok []⟩
      initState).1.isConnected = false ∧
    (connect badClient false anyUrl emptyPenv "/" ⟨⟨0⟩, .ok (), .ok []⟩
      initState).1.toolInfo = [] ∧
    (connect badClient false anyUrl emptyPenv "/" ⟨⟨0⟩, .ok (), .ok []⟩
      initState).1.tools = [] ∧
    (connect badClient false anyUrl emptyPenv "/" ⟨⟨0⟩, .ok (), .ok []⟩
      initState).1.lockerLocked = false ∧
    (connect badClient false anyUrl emptyPenv "/" ⟨⟨0⟩, .ok (), .ok []⟩
      initState).2 =
      (connect badClient false anyUrl emptyPenv "/" ⟨⟨0⟩, .ok (), .ok []⟩
        initState).1.client ∧
    (getInfo badClient (connect badClient false anyUrl emptyPenv "/"
      ⟨⟨0⟩, .ok (), .ok []⟩ initState).1).status = .disconnected :=
  connect_failure_contained badClient false anyUrl emptyPenv "/"
    ⟨⟨0⟩, .ok (), .ok []⟩ initState rfl rfl rfl rfl
    .invalidServerConfig { initState with lockerLocked := true } rfl

/-- C5: with the network-only policy active, a Stdio-shaped config makes
the transport factory fail with the distinct policy error before any
subprocess transport value is constructed (the factory returns the error,
not a `Transport.stdio`), and `connect()` on such a manager ends
Disconnected with that error stored. -/
theorem stdio_policy_rejected (name : String) (opts : ClientOptions)
    (command : String) (args : Option (List String))
    (envO : Option (List (String × String)))
    (urlValid : String → Bool) (penv : String → Option (Option String))
    (cwd : String) (cenv : ConnectEnv) (st : MCPClientState)
    (hLock : st.lockerLocked = false) (hConn : st.isConnected = false) :
    buildTransport true urlValid penv cwd (.stdio command args envO) =
      .error .stdioNotSupported ∧
    (connect ⟨name, .stdio command args envO, opts⟩ true urlValid penv cwd
      cenv st).1.error = some .stdioNotSupported ∧
    (connect ⟨name, .stdio command args envO, opts⟩ true urlValid penv cwd
      cenv st).1.isConnected = false ∧
    (getInfo ⟨name, .stdio command args envO, opts⟩
      (connect ⟨name, .stdio command args envO, opts⟩ true urlValid penv cwd
        cenv st).1).status = .disconnected := by
  have hFail : connectBody ⟨name, .stdio command args envO, opts⟩ true
      urlValid penv cwd cenv { st with lockerLocked := true } =
      .error (.stdioNotSupported, { st with lockerLocked := true }) := rfl
  rw [connect_of_body_error ⟨name, .stdio command args envO, opts⟩ true
    urlValid penv cwd cenv st .stdioNotSupported
    { st with lockerLocked := true } hLock hConn hFail]
  exact ⟨rfl, rfl, rfl, by simp [getInfo]⟩

/-- Witness for C5 at a concrete input: a well-formed Stdio config under
the policy. -/
theorem stdio_policy_rejected_witness :
    buildTransport true anyUrl emptyPenv "/"
      (.stdio "npx" (some ["server"]) none) = .error .stdioNotSupported ∧
    (connect ⟨"srv", .stdio "npx" (some ["server"]) none, ⟨none⟩⟩ true anyUrl
      emptyPenv "/" goodConnectEnv initState).1.error =
      some .stdioNotSupported ∧
    (connect ⟨"srv", .stdio "npx" (some ["server"]) none, ⟨none⟩⟩ true anyUrl
      emptyPenv "/" goodConnectEnv initState).1.isConnected = false ∧
    (getInfo ⟨"srv", .stdio "npx" (some ["server"]) none, ⟨none⟩⟩
      (connect ⟨"srv", .stdio "npx" (some ["server"]) none, ⟨none⟩⟩ true
        anyUrl emptyPenv "/" goodConnectEnv initState).1).status =
      .disconnected :=
  stdio_policy_rejected "srv" ⟨none⟩ "npx" (some ["server"]) none anyUrl
    emptyPenv "/" goodConnectEnv initState rfl rfl

/-- C10: when the handshake succeeds but tool listing fails, the `catch`
sets `isConnected := false` and stores the error but does not reset
`this.client`, so the failed `connect()` still returns the non-absent
handle assigned after the handshake. -/
theorem connect_partial_failure_keeps_handle (c : MCPClient0)
    (sseOnly : Bool) (urlValid : String → Bool)
    (penv : String → Option (Option String)) (cwd : String)
    (env : ConnectEnv) (st : MCPClientState)
    (hLock : st.lockerLocked = false) (hConn : st.isConnected = false)
    (t : Transport)
    (hbt : buildTransport sseOnly urlValid penv cwd c.serverConfig = .ok t)
    (hhs : env.handshake = .ok ()) (e : Err)
    (hlt : env.listTools = .error e) :
    (connect c sseOnly urlValid penv cwd env st).2 = some env.newClient ∧
    (connect c sseOnly urlValid penv cwd env st).1.client =
      some env.newClient ∧
    (connect c sseOnly urlValid penv cwd env st).1.isConnected = false ∧
    (connect c sseOnly urlValid penv cwd env st).1.error = some e := by
  have hFail : connectBody c sseOnly urlValid penv cwd env
      { st with lockerLocked := true } =
      .error (e, { st with
        lockerLocked := true
        isConnected := true
        error := none
        client := some env.newClient }) := by
    unfold connectBody
    rw [hbt, hhs, hlt]
  rw [connect_of_body_error c sseOnly urlValid penv cwd env st e
    { st with
      lockerLocked := true
      isConnected := true
      error := none
      client := some env.newClient } hLock hConn hFail]
  exact ⟨rfl, rfl, rfl, rfl⟩

/-- Witness for C10 at a concrete input: an SSE manager whose handshake
succeeds and whose `listTools` throws. -/
theorem connect_partial_failure_keeps_handle_witness :
    (connect sseClient false anyUrl emptyPenv "/"
      ⟨⟨7⟩, .ok (), .error (.ext "listTools failed")⟩ initState).2 =
      some ⟨7⟩ ∧
    (connect sseClient false anyUrl emptyPenv "/"
      ⟨⟨7⟩, .ok (), .error (.ext "listTools failed")⟩ initState).1.client =
      some ⟨7⟩ ∧
    (connect sseClient false anyUrl emptyPenv "/"
      ⟨⟨7⟩, .ok (), .error (.ext "listTools failed")⟩
      initState).1.isConnected = false ∧
    (connect sseClient false anyUrl emptyPenv "/"
      ⟨⟨7⟩, .ok (), .error (.ext "listTools failed")⟩ initState).1.error =
      some (.ext "listTools failed") :=
  connect_partial_failure_keeps_handle sseClient false anyUrl emptyPenv "/"
    ⟨⟨7⟩, .ok (), .error (.ext "listTools failed")⟩ initState rfl rfl
    (.sse "http://localhost/sse" none) rfl rfl (.ext "listTools failed") rfl

/-- C3, counterexample: on a fresh manager, a successful `connect`
discovers one tool, and the following `disconnect` (clean close) leaves
the manager Disconnected with `toolInfo` still non-empty — the claimed
invariant does not survive `disconnect`. -/
theorem disconnect_keeps_toolInfo_counterexample :
    (connect sseClient false anyUrl emptyPenv "/" goodConnectEnv
      initState).1.isConnected = true ∧
    (disconnect (connect sseClient false anyUrl emptyPenv "/" goodConnectEnv
      initState).1 (.ok ())).isConnected = false ∧
    (disconnect (connect sseClient false anyUrl emptyPenv "/" goodConnectEnv
      initState).1 (.ok ())).toolInfo =
      [⟨"echo", "echoes text", ⟨some "object", none, none⟩⟩] ∧
    (disconnect (connect sseClient false anyUrl emptyPenv "/" goodConnectEnv
      initState).1 (.ok ())).toolInfo ≠ [] := by
  refine ⟨rfl, rfl, rfl, ?_⟩
  intro h
  exact absurd h (by decide)

/-- C3, amended: `disconnect()` marks the manager Disconnected and
releases the handle but leaves `toolInfo` exactly as it was, so the
invariant "`toolInfo` non-empty only when Connected" is not restored by
`disconnect` — after disconnecting a previously connected manager the
discovered tool list remains. -/
theorem disconnect_state_after (st : MCPClientState)
    (closeResult : Except Err Unit) :
    (disconnect st closeResult).isConnected = false ∧
    (disconnect st closeResult).client = none ∧
    (disconnect st closeResult).toolInfo = st.toolInfo ∧
    (disconnect st closeResult).tools = st.tools := by
  unfold disconnect
  rcases st.client with _ | h0
  · exact ⟨rfl, rfl, rfl, rfl⟩
  · rcases closeResult with e | u
    · exact ⟨rfl, rfl, rfl, rfl⟩
    · exact ⟨rfl, rfl, rfl, rfl⟩

/-- C7: the `status` of the snapshot returned by `getInfo()` is derived
from the lock and the connection flag alone: it is `loading` exactly when
the mutex is held; when the mutex is free it is `connected` exactly when
the internal flag is set and `disconnected` exactly when it is not. -/
theorem getInfo_status_derived (c : MCPClient0) (st : MCPClientState) :
    ((getInfo c st).status = .loading ↔ st.lockerLocked = true) ∧
    (st.lockerLocked = false →
      ((getInfo c st).status = .connected ↔ st.isConnected = true)) ∧
    (st.lockerLocked = false →
      ((getInfo c st).status = .disconnected ↔ st.isConnected = false)) := by
  rcases st with ⟨cl, er, ic, ll, ti, tl, pd, ac, le⟩
  cases ll <;> cases ic <;> simp [getInfo]

/-- Witness for C7 at concrete states: a fresh manager is
`disconnected`, and the same state with the lock held is `loading`. -/
theorem getInfo_status_derived_witness :
    ((getInfo sseClient initState).status = .disconnected ↔
      initState.isConnected = false) ∧
    ((getInfo sseClient { initState with lockerLocked := true }).status =
      .loading ↔ ({ initState with lockerLocked := true } :
        MCPClientState).lockerLocked = true) := by
  have h1 := getInfo_status_derived sseClient initState
  have h2 := getInfo_status_derived sseClient
    { initState with lockerLocked := true }
  exact ⟨h1.2.2 rfl, h2.1⟩

/-- C8: `disconnect()` (whose body runs after the rendezvous `await
locker.wait()`) unconditionally marks the manager Disconnected and sets
the handle to absent, for every close outcome; and when a client was
present and closing it fails, the failure is only appended to the log —
the result equals the clean-close result plus that log entry, nothing is
raised to the caller. -/
theorem disconnect_close_error_swallowed (st : MCPClientState) :
    (∀ closeResult, (disconnect st closeResult).isConnected = false ∧
      (disconnect st closeResult).client = none) ∧
    (∀ e h0, st.client = some h0 →
      disconnect st (.error e) =
        { disconnect st (.ok ()) with
          loggedErrors := (disconnect st (.ok ())).loggedErrors ++ [e] }) := by
  constructor
  · intro closeResult
    unfold disconnect
    rcases st.client with _ | h0
    · exact ⟨rfl, rfl⟩
    · rcases closeResult with e | u
      · exact ⟨rfl, rfl⟩
      · exact ⟨rfl, rfl⟩
  · intro e h0 hcl
    unfold disconnect
    rw [hcl]

/-- Witness for C8 at a concrete input: a manager holding a client whose
`close` throws. -/
theorem disconnect_close_error_swallowed_witness :
    (disconnect { initState with client := some ⟨0⟩ } (.ok ())).isConnected
      = false ∧
    (disconnect { initState with client := some ⟨0⟩ }
      (.error (.ext "close failed"))).client = none ∧
    disconnect { initState with client := some ⟨0⟩ }
        (.error (.ext "close failed")) =
      { disconnect { initState with client := some ⟨0⟩ } (.ok ()) with
        loggedErrors := (disconnect { initState with client := some ⟨0⟩ }
          (.ok ())).loggedErrors ++ [.ext "close failed"] } := by
  have h := disconnect_close_error_swallowed
    { initState with client := some ⟨0⟩ }
  exact ⟨(h.1 (.ok ())).1, (h.1 (.error (.ext "close failed"))).2,
    h.2 (.ext "close failed") ⟨0⟩ rfl⟩

/-- C9: the wrapper built for a discovered tool fails fast on an
already-cancelled signal — `execute` throws the abort error and forwards
no remote invocation — and on a missing or non-cancelled signal it
forwards exactly the tool's captured name and the given parameters to
`callTool`. -/
theorem wrapper_abort_fail_fast (t : RemoteTool) (params : Params) :
    wrapperExecute (mkWrapper t) params (some true) = .error .abortedErr ∧
    (∀ inv, wrapperExecute (mkWrapper t) params (some true) ≠ .ok inv) ∧
    wrapperExecute (mkWrapper t) params none = .ok ⟨t.name, params⟩ ∧
    wrapperExecute (mkWrapper t) params (some false) =
      .ok ⟨t.name, params⟩ := by
  refine ⟨rfl, ?_, rfl, rfl⟩
  intro inv h
  exact absurd h (by simp [wrapperExecute])

/-- Witness for C9 at a concrete input: the `echo` tool with one
parameter. -/
theorem wrapper_abort_fail_fast_witness :
    wrapperExecute (mkWrapper okTool) [("text", "hi")] (some true) =
      .error .abortedErr ∧
    wrapperExecute (mkWrapper okTool) [("text", "hi")] (some true) ≠
      .ok ⟨"echo", [("text", "hi")]⟩ ∧
    wrapperExecute (mkWrapper okTool) [("text", "hi")] none =
      .ok ⟨"echo", [("text", "hi")]⟩ ∧
    wrapperExecute (mkWrapper okTool) [("text", "hi")] (some false) =
      .ok ⟨"echo", [("text", "hi")]⟩ := by
  have h := wrapper_abort_fail_fast okTool [("text", "hi")]
  exact ⟨h.1, h.2.1 ⟨"echo", [("text", "hi")]⟩, h.2.2.1, h.2.2.2⟩

/-- C6: for a valid Stdio config the factory hands `StdioClientTransport`
the ambient environment overlaid by the config entries with
undefined-valued keys dropped, and the caller's current directory: the
constructed transport's env is `filteredEnv`, on which a config entry
wins on conflict, a key whose merged value is undefined (or absent) is
dropped rather than passed as empty, and `PATH` is preserved from the
ambient environment when the config does not override it. -/
theorem stdio_env_overlay (cmd : String) (args : Option (List String))
    (cenvL : List (String × String)) (urlValid : String → Bool)
    (penv : String → Option (Option String)) (cwd : String)
    (hcmd : 1 ≤ cmd.length) :
    buildTransport false urlValid penv cwd (.stdio cmd args (some cenvL)) =
      .ok (.stdio cmd args
        (filteredEnv penv (some (alistLookup cenvL))) cwd) ∧
    (∀ k v, alistLookup cenvL k = some v →
      filteredEnv penv (some (alistLookup cenvL)) k = some v) ∧
    (∀ k, alistLookup cenvL k = none → penv k = some none →
      filteredEnv penv (some (alistLookup cenvL)) k = none) ∧
    (∀ k, alistLookup cenvL k = none → penv k = none →
      filteredEnv penv (some (alistLookup cenvL)) k = none) ∧
    (∀ p, alistLookup cenvL "PATH" = none → penv "PATH" = some (some p) →
      filteredEnv penv (some (alistLookup cenvL)) "PATH" = some p) := by
  refine ⟨?_, ?_, ?_, ?_, ?_⟩
  · simp [buildTransport, parseStdioConfig, hcmd]
  · intro k v h
    simp [filteredEnv, spreadEnv, h]
  · intro k h1 h2
    simp [filteredEnv, spreadEnv, h1, h2]
  · intro k h1 h2
    simp [filteredEnv, spreadEnv, h1, h2]
  · intro p h1 h2
    simp [filteredEnv, spreadEnv, h1, h2]

/-- Witness for C6 at a concrete input: ambient env has `A=0`, a `PATH`,
and an `UNDEF` key holding undefined; the config supplies `A=1`. -/
theorem stdio_env_overlay_witness :
    buildTransport false anyUrl samplePenv "/work"
      (.stdio "npx" none (some [("A", "1")])) =
      .ok (.stdio "npx" none
        (filteredEnv samplePenv (some (alistLookup [("A", "1")])))
        "/work") ∧
    filteredEnv samplePenv (some (alistLookup [("A", "1")])) "A" =
      some "1" ∧
    filteredEnv samplePenv (some (alistLookup [("A", "1")])) "UNDEF" =
      none ∧
    filteredEnv samplePenv (some (alistLookup [("A", "1")])) "MISSING" =
      none ∧
    filteredEnv samplePenv (some (alistLookup [("A", "1")])) "PATH" =
      some "/usr/bin" := by
  have h := stdio_env_overlay "npx" none [("A", "1")] anyUrl samplePenv
    "/work" (by decide)
  exact ⟨h.1, h.2.1 "A" "1" (by decide), h.2.2.1 "UNDEF" (by decide)
    (by decide), h.2.2.2.1 "MISSING" (by decide) (by decide),
    h.2.2.2.2 "/usr/bin" (by decide) (by decide)⟩

/-- C2, counterexample to the claim as stated: a manager left with a
stale handle by a partly-failed connect (handshake ok, `listTools`
threw) is not connected; `callTool` implicitly re-connects, that connect
fails (the handshake is refused and the error is stored), yet the call
proceeds on the stale handle and returns the remote's result with
`isError = false` — a connect failure without an `isError` result. -/
theorem callTool_stale_handle_counterexample :
    (connect sseClient false anyUrl emptyPenv "/"
      ⟨⟨0⟩, .ok (), .error (.ext "listTools failed")⟩
      initState).1.isConnected = false ∧
    (connect sseClient false anyUrl emptyPenv "/"
      ⟨⟨0⟩, .ok (), .error (.ext "listTools failed")⟩ initState).1.client =
      some ⟨0⟩ ∧
    (callTool sseClient false anyUrl emptyPenv "/"
      ⟨⟨⟨1⟩, .error (.ext "connection refused"), .ok []⟩,
        .ok (some ⟨[.text "hi"], false⟩)⟩
      (connect sseClient false anyUrl emptyPenv "/"
        ⟨⟨0⟩, .ok (), .error (.ext "listTools failed")⟩ initState).1
      "echo" []).1.error = some (.ext "connection refused") ∧
    (callTool sseClient false anyUrl emptyPenv "/"
      ⟨⟨⟨1⟩, .error (.ext "connection refused"), .ok []⟩,
        .ok (some ⟨[.text "hi"], false⟩)⟩
      (connect sseClient false anyUrl emptyPenv "/"
        ⟨⟨0⟩, .ok (), .error (.ext "listTools failed")⟩ initState).1
      "echo" []).1.isConnected = false ∧
    (callTool sseClient false anyUrl emptyPenv "/"
      ⟨⟨⟨1⟩, .error (.ext "connection refused"), .ok []⟩,
        .ok (some ⟨[.text "hi"], false⟩)⟩
      (connect sseClient false anyUrl emptyPenv "/"
        ⟨⟨0⟩, .ok (), .error (.ext "listTools failed")⟩ initState).1
      "echo" []).2.isError = false :=
  ⟨rfl, rfl, rfl, rfl, rfl⟩

/-- C2, amended: `callTool` is a total function (never raises) whose
result is either the remote's own result or a structured `isError` result
with non-empty content — transport throws, remote-reported errors and
null responses included; and when the manager is not connected, the call
first runs `connect()` implicitly, a connect failure yielding the
structured `isError` result provided no stale client handle survives the
failed connect (if one does, the call proceeds on that handle and may
return a non-error result). -/
theorem callTool_normalizes_failures (c : MCPClient0) (sseOnly : Bool)
    (urlValid : String → Bool) (penv : String → Option (Option String))
    (cwd : String) (env : CallEnv) (st : MCPClientState)
    (toolName : String) (input : Params) :
    (((callTool c sseOnly urlValid penv cwd env st toolName input).2.isError
        = true ∧
      (callTool c sseOnly urlValid penv cwd env st toolName input).2.content
        ≠ []) ∨
      env.remote = .ok (some
        (callTool c sseOnly urlValid penv cwd env st toolName input).2)) ∧
    (∀ e s, st.lockerLocked = false → st.isConnected = false →
      connectBody c sseOnly urlValid penv cwd env.connectEnv
        { st with lockerLocked := true } = .error (e, s) →
      s.client = none →
      (callTool c sseOnly urlValid penv cwd env st toolName input).2 =
        failResult .nullResult) := by
  constructor
  · rcases hcl : (connect c sseOnly urlValid penv cwd env.connectEnv st).2
      with _ | h0
    · left
      simp [callTool, hcl, failResult]
    · rcases hr : env.remote with e | ov
      · left
        simp [callTool, hcl, hr, failResult]
      · rcases ov with _ | v
        · left
          simp [callTool, hcl, hr, failResult]
        · right
          have hres : (callTool c sseOnly urlValid penv cwd env st toolName
              input).2 = v := by
            rcases hv : v.isError
            · simp [callTool, hcl, hr, hv]
            · simp [callTool, hcl, hr, hv]
          rw [hres]
  · intro e s hL hC hF hcl
    have hconn := connect_of_body_error c sseOnly urlValid penv cwd
      env.connectEnv st e s hL hC hF
    simp [callTool, hconn, hcl]

/-- Witness for C2's amended claim at a concrete input: a config matching
neither probe, a fresh manager; the failed implicit connect leaves no
handle and the call returns the structured null-failure result. -/
theorem callTool_normalizes_failures_witness :
    (((callTool badClient false anyUrl emptyPenv "/"
        ⟨⟨⟨0⟩, .ok (), .ok []⟩, .ok none⟩ initState "echo" []).2.isError
        = true ∧
      (callTool badClient false anyUrl emptyPenv "/"
        ⟨⟨⟨0⟩, .ok (), .ok []⟩, .ok none⟩ initState "echo" []).2.content
        ≠ []) ∨
      (.ok none : Except Err (Option CallToolResult)) = .ok (some
        (callTool badClient false anyUrl emptyPenv "/"
          ⟨⟨⟨0⟩, .ok (), .ok []⟩, .ok none⟩ initState "echo" []).2)) ∧
    (callTool badClient false anyUrl emptyPenv "/"
      ⟨⟨⟨0⟩, .ok (), .ok []⟩, .ok none⟩ initState "echo" []).2 =
      failResult .nullResult := by
  have h := callTool_normalizes_failures badClient false anyUrl emptyPenv
    "/" ⟨⟨⟨0⟩, .ok (), .ok []⟩, .ok none⟩ initState "echo" []
  exact ⟨h.1, h.2 .invalidServerConfig
    { initState with lockerLocked := true } rfl rfl rfl rfl⟩

/-- C4, counterexample to the claim as stated: a connected manager with a
configured 5-second auto-disconnect delay; the remote call fails at the
transport level, `callTool` completes with a structured error result, yet
the idle-disconnect scheduler is not re-armed (no pending disconnect, no
arm ever recorded) — the `.ifOk` stage that re-arms is skipped on a
failed chain. -/
theorem callTool_no_rearm_counterexample :
    sseClient.options.autoDisconnectSeconds = some 5 ∧
    (callTool sseClient false anyUrl emptyPenv "/"
      ⟨goodConnectEnv, .error (.ext "ECONNRESET")⟩
      { initState with isConnected := true, client := some ⟨0⟩ }
      "echo" []).2.isError = true ∧
    (callTool sseClient false anyUrl emptyPenv "/"
      ⟨goodConnectEnv, .error (.ext "ECONNRESET")⟩
      { initState with isConnected := true, client := some ⟨0⟩ }
      "echo" []).1.pendingDisconnect = false ∧
    (callTool sseClient false anyUrl emptyPenv "/"
      ⟨goodConnectEnv, .error (.ext "ECONNRESET")⟩
      { initState with isConnected := true, client := some ⟨0⟩ }
      "echo" []).1.armCount = 0 :=
  ⟨rfl, rfl, rfl, rfl⟩

/-- C4, amended: on a connected manager with a configured non-zero
auto-disconnect delay (the source's truthiness guard treats a zero delay
as unset), `callTool` re-arms the idle-disconnect scheduler (cancelling
and replacing any pending disconnect) whenever the call chain completes
ok — remote results with `isError` included — but not when the call fails
at the transport level or the response is null/absent: those runs leave
the scheduler exactly as it was. -/
theorem callTool_rearm_on_ok_only (c : MCPClient0) (sseOnly : Bool)
    (urlValid : String → Bool) (penv : String → Option (Option String))
    (cwd : String) (cenv : ConnectEnv) (st : MCPClientState)
    (toolName : String) (input : Params) (h0 : ClientHandle) (d : Nat)
    (hLock : st.lockerLocked = false) (hConn : st.isConnected = true)
    (hCl : st.client = some h0)
    (hOpt : c.options.autoDisconnectSeconds = some d) (hd : d ≠ 0) :
    (∀ v, (callTool c sseOnly urlValid penv cwd ⟨cenv, .ok (some v)⟩ st
        toolName input).1.armCount = st.armCount + 1 ∧
      (callTool c sseOnly urlValid penv cwd ⟨cenv, .ok (some v)⟩ st
        toolName input).1.pendingDisconnect = true) ∧
    (∀ e, (callTool c sseOnly urlValid penv cwd ⟨cenv, .error e⟩ st
        toolName input).1.armCount = st.armCount ∧
      (callTool c sseOnly urlValid penv cwd ⟨cenv, .error e⟩ st
        toolName input).1.pendingDisconnect = st.pendingDisconnect) ∧
    ((callTool c sseOnly urlValid penv cwd ⟨cenv, .ok none⟩ st
        toolName input).1.armCount = st.armCount ∧
      (callTool c sseOnly urlValid penv cwd ⟨cenv, .ok none⟩ st
        toolName input).1.pendingDisconnect = st.pendingDisconnect) := by
  have hconn : connect c sseOnly urlValid penv cwd cenv st =
      (st, st.client) := by
    unfold connect
    rw [if_neg (by simp [hLock]), if_pos hConn]
  refine ⟨?_, ?_, ?_⟩
  · intro v
    rcases hv : v.isError
    · constructor <;>
        simp [callTool, hconn, hCl, hv, scheduleAutoDisconnect, hOpt, hd]
    · constructor <;>
        simp [callTool, hconn, hCl, hv, scheduleAutoDisconnect, hOpt, hd]
  · intro e
    constructor <;> simp [callTool, hconn, hCl]
  · constructor <;> simp [callTool, hconn, hCl]

/-- Witness for C4's amended claim at concrete inputs: a connected
manager with a 5-second delay; an ok remote result arms the scheduler, a
transport throw leaves it untouched. -/
theorem callTool_rearm_on_ok_only_witness :
    (callTool sseClient false anyUrl emptyPenv "/"
      ⟨goodConnectEnv, .ok (some ⟨[.text "hi"], false⟩)⟩
      { initState with isConnected := true, client := some ⟨0⟩ }
      "echo" []).1.armCount =
      ({ initState with isConnected := true, client := some ⟨0⟩ } :
        MCPClientState).armCount + 1 ∧
    (callTool sseClient false anyUrl emptyPenv "/"
      ⟨goodConnectEnv, .ok (some ⟨[.text "hi"], false⟩)⟩
      { initState with isConnected := true, client := some ⟨0⟩ }
      "echo" []).1.pendingDisconnect = true ∧
    (callTool sseClient false anyUrl emptyPenv "/"
      ⟨goodConnectEnv, .error (.ext "boom")⟩
      { initState with isConnected := true, client := some ⟨0⟩ }
      "echo" []).1.armCount =
      ({ initState with isConnected := true, client := some ⟨0⟩ } :
        MCPClientState).armCount := by
  have h := callTool_rearm_on_ok_only sseClient false anyUrl emptyPenv "/"
    goodConnectEnv { initState with isConnected := true, client := some ⟨0⟩ }
    "echo" [] ⟨0⟩ 5 rfl rfl rfl rfl (by decide)
  exact ⟨(h.1 ⟨[.text "hi"], false⟩).1, (h.1 ⟨[.text "hi"], false⟩).2,
    (h.2.1 (.ext "boom")).1⟩

end MCP
